import Mathlib

/-!
# pingpong: session protocol declarations and WiFi board bring-up

A shallow embedding of `main/protocols/protocol.h` and `main/wifi_board.cc`.

* C `int` / `int32_t` values are `Int`, `uint8_t` / `uint16_t` / `uint32_t` values are `Nat`
  (reduced modulo the field width wherever a value is stored into a fixed-width field).
* Stateful member functions are state-passing functions; the collaborators that live in other
  translation units (`Settings`, `SsidManager`, `WifiStation`, `WifiConfigurationAp`,
  `Application`) appear as explicit parameters or as recorded calls.
* Logging (`ESP_LOGI`) has no effect on any modelled state and is left out.
-/

namespace Pingpong

/-! ## protocol.h : session state of `Protocol` -/

/-- Enum `AbortReason` of protocol.h, lines 33-36. -/
inductive AbortReason where
  | kAbortReasonNone
  | kAbortReasonWakeWordDetected
  deriving DecidableEq, Repr

/-- Enum `ListeningMode` of protocol.h, lines 38-42. -/
inductive ListeningMode where
  | kListeningModeAutoStop
  | kListeningModeManualStop
  | kListeningModeRealtime
  deriving DecidableEq, Repr

/-- Data members of class `Protocol` (protocol.h, lines 84-88) with their default member
initialisers.  `session_id_` is a default-constructed `std::string` (empty) and
`last_incoming_time_` a default-constructed `time_point` (the clock epoch, tick 0).  The five
`std::function` observer slots (lines 78-82) are default-constructed empty and carry no data. -/
structure Protocol where
  server_sample_rate_ : Int := 24000
  server_frame_duration_ : Int := 60
  error_occurred_ : Bool := false
  session_id_ : String := ""
  last_incoming_time_ : Nat := 0
  deriving DecidableEq, Repr

namespace Protocol

/-- State of a `Protocol` object right after construction: every member holds its default
member initialiser (the class declares no constructor). -/
def fresh : Protocol := {}

/-- Accessor `server_sample_rate()`, protocol.h lines 48-50. -/
def server_sample_rate (p : Protocol) : Int := p.server_sample_rate_

/-- Accessor `server_frame_duration()`, protocol.h lines 51-53. -/
def server_frame_duration (p : Protocol) : Int := p.server_frame_duration_

/-- Accessor `session_id()`, protocol.h lines 54-56. -/
def session_id (p : Protocol) : String := p.session_id_

end Protocol

/-! ## wifi_board.cc : construction and the one-shot `force_ap` setting -/

/-- Operations of a `Settings("wifi", true)` handle over a persistent store `σ`.  The class
`Settings` is declared in `settings.h`, outside the translated files, so its two member functions
used by `WifiBoard` are parameters of the model. -/
structure SettingsOps (σ : Type) where
  GetInt : σ → String → Int
  SetInt : σ → String → Int → σ

/-- Read-after-write law of a settings store: a value written under a key is the value read back
under that key. -/
def SettingsOps.ReadsBack {σ : Type} (S : SettingsOps σ) : Prop :=
  ∀ (st : σ) (k : String) (v : Int), S.GetInt (S.SetInt st k v) k = v

/-- Concrete settings store: an association list in which the first binding of a key wins and
an absent key reads as `0`. -/
def assocSettings : SettingsOps (List (String × Int)) where
  GetInt := fun st k => ((st.lookup k).getD 0)
  SetInt := fun st k v => (k, v) :: st

/-- Data member of `WifiBoard` touched by the translated functions. -/
structure WifiBoard where
  wifi_config_mode_ : Bool
  deriving DecidableEq, Repr

/-- Constructor `WifiBoard::WifiBoard()`, wifi_board.cc lines 21-29: returns the constructed
object and the settings store as the constructor leaves it. -/
def WifiBoard.construct {σ : Type} (S : SettingsOps σ) (st : σ) : WifiBoard × σ :=
  let wifi_config_mode_ : Bool := decide (S.GetInt st "force_ap" = 1)
  if wifi_config_mode_ then
    ({ wifi_config_mode_ := wifi_config_mode_ }, S.SetInt st "force_ap" 0)
  else
    ({ wifi_config_mode_ := wifi_config_mode_ }, st)

/-- Member `WifiBoard::ResetWifiConfiguration()`, wifi_board.cc lines 144-155: stores
`force_ap = 1`; the device then restarts, so only the settings store survives the call. -/
def WifiBoard.ResetWifiConfiguration {σ : Type} (S : SettingsOps σ) (st : σ) : σ :=
  S.SetInt st "force_ap" 1

/-! ## wifi_board.cc : `StartNetwork` and `EnterWifiConfigMode` -/

/-- Calls made on collaborators by `StartNetwork` and `EnterWifiConfigMode`, in program order. -/
inductive Call where
  | SetDeviceState_WifiConfiguring
  | Ap_SetSsidPrefix (s : String)
  | Ap_Start
  | GetSsidList
  | Station_Start
  | Station_WaitForConnected (timeout_ms : Nat)
  | Station_Stop
  | EnterWifiConfigMode
  deriving DecidableEq, Repr

/-- Board state together with the observable state of its collaborators. -/
structure NetState where
  wifi_config_mode_ : Bool
  station_started : Bool
  ap_started : Bool
  device_wifi_configuring : Bool
  calls : List Call
  deriving DecidableEq, Repr

/-- What the caller of a member function observes: either the call returns with a state, or
it never returns and the device stays in the given state (the `while (true)` loop at
wifi_board.cc lines 47-52, which only reads heap statistics and sleeps). -/
inductive Outcome where
  | returned (s : NetState)
  | neverReturns (s : NetState)
  deriving DecidableEq, Repr

/-- Inputs of `StartNetwork` that come from collaborators: the stored SSID list and the answer
of `WifiStation::WaitForConnected` for a given timeout in milliseconds. -/
structure NetEnv where
  ssid_list : List String
  WaitForConnected : Nat → Bool

/-- Member `WifiBoard::EnterWifiConfigMode()`, wifi_board.cc lines 36-53: the state in which
the function enters its endless loop. -/
def EnterWifiConfigMode (s : NetState) : NetState :=
  { s with
    device_wifi_configuring := true
    ap_started := true
    calls := s.calls ++ [Call.EnterWifiConfigMode, Call.SetDeviceState_WifiConfiguring,
      Call.Ap_SetSsidPrefix "Xiaozhi", Call.Ap_Start] }

/-- Member `WifiBoard::StartNetwork()`, wifi_board.cc lines 55-89. -/
def StartNetwork (env : NetEnv) (s : NetState) : Outcome :=
  if s.wifi_config_mode_ then
    Outcome.neverReturns (EnterWifiConfigMode s)
  else
    let s1 := { s with calls := s.calls ++ [Call.GetSsidList] }
    if env.ssid_list.isEmpty then
      Outcome.neverReturns (EnterWifiConfigMode { s1 with wifi_config_mode_ := true })
    else
      let s2 := { s1 with station_started := true, calls := s1.calls ++ [Call.Station_Start] }
      let s3 := { s2 with calls := s2.calls ++ [Call.Station_WaitForConnected (60 * 1000)] }
      if !(env.WaitForConnected (60 * 1000)) then
        let s4 := { s3 with station_started := false, calls := s3.calls ++ [Call.Station_Stop] }
        Outcome.neverReturns (EnterWifiConfigMode { s4 with wifi_config_mode_ := true })
      else
        Outcome.returned s3

/-- Whether a run of `StartNetwork` called `EnterWifiConfigMode` on entry state `s0`. -/
def Outcome.EntersConfigModeFrom (o : Outcome) (s0 : NetState) : Prop :=
  o = Outcome.neverReturns (EnterWifiConfigMode s0)

/-! ## wifi_board.cc : `GetDeviceStatusJson` -/

/-- Tree built with the cJSON calls used by `GetDeviceStatusJson`: string items and objects with
their members in insertion order. -/
inductive CJson where
  | str (s : String)
  | obj (members : List (String × CJson))

/-- Members of an object (none for a string item). -/
def CJson.members : CJson → List (String × CJson)
  | CJson.obj ms => ms
  | CJson.str _ => []

/-- Every member value stored under key `k`, in insertion order. -/
def CJson.valuesAt (j : CJson) (k : String) : List CJson :=
  (j.members.filter (fun m => m.1 == k)).map (fun m => m.2)

/-- String carried by a string item. -/
def CJson.asString : CJson → Option String
  | CJson.str s => some s
  | CJson.obj _ => none

/-- Member `WifiBoard::GetDeviceStatusJson()`, wifi_board.cc lines 157-182, for the station
SSID and RSSI read from `WifiStation`: the tree `root` the function builds.  The returned text is
that tree printed by `cJSON_PrintUnformatted`, a function of the cJSON library. -/
def GetDeviceStatusJson (ssid : String) (rssi : Int) : CJson :=
  let network : List (String × CJson) := [("type", CJson.str "wifi"), ("ssid", CJson.str ssid)]
  let network :=
    if rssi ≥ -60 then
      network ++ [("signal", CJson.str "strong")]
    else if rssi ≥ -70 then
      network ++ [("signal", CJson.str "medium")]
    else
      network ++ [("signal", CJson.str "weak")]
  CJson.obj [("network", CJson.obj network)]

/-- Signal labels reported in a device-status tree: the string values stored under `signal` in
the objects stored under `network`. -/
def signalLabels (j : CJson) : List String :=
  (j.valuesAt "network").flatMap (fun n => (n.valuesAt "signal").filterMap CJson.asString)

/-- Strength order of the three labels: weak below medium below strong. -/
def labelRank (l : String) : Nat :=
  if l = "strong" then 2 else if l = "medium" then 1 else 0

/-! ## protocol.h : the packed frame headers -/

/-- Element types used by the two header declarations; `flex e` is a flexible array member
`e name[]`, which adds no bytes to the struct itself. -/
inductive CType where
  | uint8_t
  | uint16_t
  | uint32_t
  | flex (elem : CType)
  deriving DecidableEq, Repr

/-- Result of `sizeof` on a type. -/
def CType.size : CType → Nat
  | CType.uint8_t => 1
  | CType.uint16_t => 2
  | CType.uint32_t => 4
  | CType.flex _ => 0

/-- Natural alignment of a type. -/
def CType.align : CType → Nat
  | CType.uint8_t => 1
  | CType.uint16_t => 2
  | CType.uint32_t => 4
  | CType.flex e => e.align

/-- Size of one element of a flexible array member (0 for any other type). -/
def CType.elemSize : CType → Nat
  | CType.flex e => e.size
  | _ => 0

/-- One member of a struct declaration. -/
structure Field where
  name : String
  ty : CType
  deriving DecidableEq, Repr

/-- Struct declaration: members in declaration order, and whether it carries
`__attribute__((packed))`. -/
structure StructDecl where
  fields : List Field
  packed : Bool
  deriving DecidableEq, Repr

/-- Declaration `struct BinaryProtocol2`, protocol.h lines 17-24. -/
def BinaryProtocol2 : StructDecl where
  fields := [⟨"version", CType.uint16_t⟩, ⟨"type", CType.uint16_t⟩,
    ⟨"reserved", CType.uint32_t⟩, ⟨"timestamp", CType.uint32_t⟩,
    ⟨"payload_size", CType.uint32_t⟩, ⟨"payload", CType.flex CType.uint8_t⟩]
  packed := true

/-- Declaration `struct BinaryProtocol3`, protocol.h lines 26-31. -/
def BinaryProtocol3 : StructDecl where
  fields := [⟨"type", CType.uint8_t⟩, ⟨"reserved", CType.uint8_t⟩,
    ⟨"payload_size", CType.uint16_t⟩, ⟨"payload", CType.flex CType.uint8_t⟩]
  packed := true

/-- Smallest multiple of `a` that is at least `n`. -/
def alignUp (n a : Nat) : Nat := (n + a - 1) / a * a

/-- Alignment a member gets inside the struct: 1 when the struct is packed. -/
def StructDecl.fieldAlign (d : StructDecl) (t : CType) : Nat :=
  if d.packed then 1 else t.align

/-- Placement of one member: its name, byte offset and size in bytes. -/
structure Slot where
  name : String
  offset : Nat
  size : Nat
  deriving DecidableEq, Repr

/-- Places the members one after another starting at byte `cur`, each at the next offset
that satisfies its alignment. -/
def StructDecl.place (d : StructDecl) : Nat → List Field → List Slot
  | _, [] => []
  | cur, f :: fs =>
    let off := alignUp cur (d.fieldAlign f.ty)
    ⟨f.name, off, f.ty.size⟩ :: d.place (off + f.ty.size) fs

/-- Placement of every member of the struct. -/
def StructDecl.layout (d : StructDecl) : List Slot := d.place 0 d.fields

/-- Alignment of the struct: the largest member alignment. -/
def StructDecl.align (d : StructDecl) : Nat :=
  d.fields.foldl (fun a f => max a (d.fieldAlign f.ty)) 1

/-- Result of `sizeof` on the struct: the end of the last member, rounded up to the alignment
of the struct. -/
def StructDecl.sizeof (d : StructDecl) : Nat :=
  alignUp (d.layout.foldl (fun _ sl => sl.offset + sl.size) 0) d.align

/-- Result of `offsetof` for a member name. -/
def StructDecl.offsetof (d : StructDecl) (name : String) : Option Nat :=
  (d.layout.find? (fun sl => sl.name == name)).map (fun sl => sl.offset)

/-- Size in bytes of the member with the given name (0 when there is none). -/
def StructDecl.fieldSize (d : StructDecl) (name : String) : Nat :=
  ((d.layout.find? (fun sl => sl.name == name)).map (fun sl => sl.size)).getD 0

/-- Bytes occupied by the struct followed by `n` elements of its trailing flexible array
member. -/
def StructDecl.frameSize (d : StructDecl) (n : Nat) : Nat :=
  d.sizeof + n * ((d.fields.getLast?.map (fun f => f.ty.elemSize)).getD 0)

/-- Sum of the member sizes: what the struct occupies when nothing is inserted between its
members. -/
def StructDecl.membersSize (d : StructDecl) : Nat :=
  (d.fields.map (fun f => f.ty.size)).sum

/-- Largest value an unsigned member of the given name can hold. -/
def StructDecl.fieldMax (d : StructDecl) (name : String) : Nat :=
  2 ^ (8 * d.fieldSize name) - 1

/-- Struct `AudioStreamPacket`, protocol.h lines 10-15, with its default member
initialisers. -/
structure AudioStreamPacket where
  sample_rate : Int := 0
  frame_duration : Int := 0
  timestamp : Nat := 0
  payload : List Nat := []
  deriving DecidableEq, Repr

/-- Range conditions of the C types of the four members: two `int`, one `uint32_t`, and a
vector of `uint8_t`. -/
def AudioStreamPacket.valid (p : AudioStreamPacket) : Prop :=
  (-(2 : Int) ^ 31 ≤ p.sample_rate ∧ p.sample_rate < 2 ^ 31) ∧
  (-(2 : Int) ^ 31 ≤ p.frame_duration ∧ p.frame_duration < 2 ^ 31) ∧
  p.timestamp < 2 ^ 32 ∧
  ∀ b ∈ p.payload, b < 256

/-! ## Wire frame codec (specification section 4.1) -/

/-- Modelled from the spec: byte order of the multi-byte header members on the wire, which
section 6 fixes per deployment ("as agreed with the server"), so it is a parameter of the codec. -/
inductive ByteOrder where
  | little
  | big
  deriving DecidableEq, Repr

/-- The `w` low-order bytes of `n`, least significant first. -/
def leBytes : Nat → Nat → List Nat
  | 0, _ => []
  | w + 1, n => n % 256 :: leBytes w (n / 256)

/-- Value of a byte string read least significant byte first. -/
def leValue : List Nat → Nat
  | [] => 0
  | b :: bs => b + 256 * leValue bs

/-- Unsigned value `n` stored into a member of `w` bytes (truncated to the member width). -/
def toBytes (bo : ByteOrder) (w n : Nat) : List Nat :=
  match bo with
  | ByteOrder.little => leBytes w n
  | ByteOrder.big => (leBytes w n).reverse

/-- Unsigned value held by the bytes of a member. -/
def fromBytes (bo : ByteOrder) (bs : List Nat) : Nat :=
  match bo with
  | ByteOrder.little => leValue bs
  | ByteOrder.big => leValue bs.reverse

/-- Memory image of a struct whose members hold the values `vals`: every member at its
offset, zero bytes in any gap before it. -/
def StructDecl.image (d : StructDecl) (bo : ByteOrder) (vals : String → Nat) : List Nat :=
  d.layout.foldl
    (fun acc sl => acc ++ List.replicate (sl.offset - acc.length) 0 ++
      toBytes bo sl.size (vals sl.name)) []

/-- Value of the member `name` read from a memory image at the offset and width the
declaration gives it. -/
def StructDecl.read (d : StructDecl) (bo : ByteOrder) (bytes : List Nat) (name : String) : Nat :=
  fromBytes bo ((bytes.drop ((d.offsetof name).getD 0)).take (d.fieldSize name))

/-- Modelled from the spec: the two frame versions of the codec (section 4.1). -/
inductive FrameVersion where
  | v2
  | v3
  deriving DecidableEq, Repr

/-- Header declaration of a frame version. -/
def FrameVersion.decl : FrameVersion → StructDecl
  | FrameVersion.v2 => BinaryProtocol2
  | FrameVersion.v3 => BinaryProtocol3

/-- Number carried in the `version` member of a version-2 header. -/
def FrameVersion.number : FrameVersion → Nat
  | FrameVersion.v2 => 2
  | FrameVersion.v3 => 3

/-- Largest payload length the `payload_size` member of the version can hold. -/
def FrameVersion.maxPayload (v : FrameVersion) : Nat := v.decl.fieldMax "payload_size"

/-- Modelled from the spec: error kinds `FrameError` of section 7. -/
inductive FrameError where
  | Truncated
  | SizeMismatch
  | UnknownType
  | PayloadTooLarge
  deriving DecidableEq, Repr

/-- Modelled from the spec: result of decoding one frame (section 4.1), an audio packet or
the text bytes of an embedded control message. -/
inductive Frame where
  | audio (packet : AudioStreamPacket)
  | json (text : List Nat)
  deriving DecidableEq, Repr

/-- Decidable equality of codec results, so that they can be compared by evaluation. -/
instance instDecidableEqExcept {ε α : Type} [DecidableEq ε] [DecidableEq α] :
    DecidableEq (Except ε α)
  | Except.ok a, Except.ok b =>
    if h : a = b then isTrue (by rw [h]) else isFalse (fun h2 => h (Except.ok.inj h2))
  | Except.error a, Except.error b =>
    if h : a = b then isTrue (by rw [h]) else isFalse (fun h2 => h (Except.error.inj h2))
  | Except.ok _, Except.error _ => isFalse (fun h => Except.noConfusion h)
  | Except.error _, Except.ok _ => isFalse (fun h => Except.noConfusion h)

/-- Modelled from the spec: header member values of an audio frame (section 3), namely the
version number, type code 0 (audio), reserved 0, the packet
timestamp (only version 2 declares that member) and the payload length. -/
def audioHeader (p : AudioStreamPacket) (v : FrameVersion) (name : String) : Nat :=
  if name = "version" then v.number
  else if name = "timestamp" then p.timestamp
  else if name = "payload_size" then p.payload.length
  else 0

/-- Modelled from the spec: `encode_audio(packet, version) -> bytes` of section 4.1, which no
translated file defines (protocol.h only declares the two headers).  The header of the
requested version is filled in and followed by the payload bytes; the call fails with
`PayloadTooLarge` when the payload length exceeds the range of the version's `payload_size`
member. -/
def encode_audio (bo : ByteOrder) (p : AudioStreamPacket) (v : FrameVersion) :
    Except FrameError (List Nat) :=
  if p.payload.length > v.maxPayload then
    Except.error FrameError.PayloadTooLarge
  else
    Except.ok (v.decl.image bo (audioHeader p v) ++ p.payload)

/-- Modelled from the spec: `decode(bytes, version) -> Frame` of section 4.1, which no
translated file defines.  It parses the fixed header, then slices the payload: `Truncated` for
a buffer shorter than the header, `SizeMismatch` when `payload_size` differs from the number of
bytes after the header, `UnknownType` for a type code other than 0 (audio) and 1 (json).  The
codec is stateless and neither header has a member for the sample rate or the frame duration,
so an audio packet is built with the default member initialisers of `AudioStreamPacket` for
those two members; version 3 has no timestamp member and yields timestamp 0. -/
def decode (bo : ByteOrder) (bytes : List Nat) (v : FrameVersion) : Except FrameError Frame :=
  let d := v.decl
  if bytes.length < d.sizeof then
    Except.error FrameError.Truncated
  else
    let payload := bytes.drop d.sizeof
    if d.read bo bytes "payload_size" ≠ payload.length then
      Except.error FrameError.SizeMismatch
    else if d.read bo bytes "type" = 0 then
      let timestamp := match v with
        | FrameVersion.v2 => d.read bo bytes "timestamp"
        | FrameVersion.v3 => 0
      Except.ok (Frame.audio { timestamp := timestamp, payload := payload })
    else if d.read bo bytes "type" = 1 then
      Except.ok (Frame.json payload)
    else
      Except.error FrameError.UnknownType

/-- Encoding a packet and decoding the produced bytes with the same version and byte order. -/
def roundTrip (bo : ByteOrder) (p : AudioStreamPacket) (v : FrameVersion) :
    Except FrameError Frame :=
  match encode_audio bo p v with
  | Except.ok bytes => decode bo bytes v
  | Except.error e => Except.error e

/-- Packet the round trip is specified to return: the packet itself, with timestamp 0 under
version 3. -/
def expectedRoundTrip (p : AudioStreamPacket) (v : FrameVersion) : AudioStreamPacket :=
  match v with
  | FrameVersion.v2 => p
  | FrameVersion.v3 => { p with timestamp := 0 }

/-! ## Protocol engine: outbound commands (specification section 4.3) -/

/-- Modelled from the spec: the seven outbound control messages of the table in section 4.2. -/
inductive ControlMessage where
  | wake_word_detected (wake_word : String)
  | listen_start (mode : ListeningMode)
  | listen_stop
  | abort (reason : AbortReason)
  | iot_descriptors (descriptors : String)
  | iot_states (states : String)
  | mcp (message : String)
  deriving DecidableEq, Repr

/-- What a member function hands back to its caller: nothing when it is declared `void`, a
success/failure status when it is declared `bool`. -/
inductive Returned where
  | nothing
  | status (ok : Bool)
  deriving DecidableEq, Repr

/-- Modelled from the spec: what the engine gets from outside itself during one command.
`is_channel_open` and `send_text_result` are the answers of the collaborator interfaces
`is_channel_open()` and `send_text(text)` of section 6, which the transport binding implements
(protocol.h declares no channel state in `Protocol`); `serialize` is the control message codec
of section 4.2.  `closed_error` is the effect on the session state of reporting the error of a
command issued on a channel that is not open: section 4.3 calls such a command a
"no-op-with-error" without saying how a `void` command reports it, so the report is left
open. -/
structure Binding where
  is_channel_open : Bool
  serialize : ControlMessage → String
  send_text_result : String → Bool
  closed_error : Protocol → Protocol

/-- Modelled from the spec: engine state, made of the session state of `Protocol` and the
texts handed to `SendText` so far, oldest first. -/
structure Engine where
  session : Protocol
  sent_texts : List String
  deriving DecidableEq, Repr

/-- Modelled from the spec: `set_error(message)` of section 4.3, declared as
`void SetError(const std::string&)` at protocol.h line 91, as far as the data members go: it
sets the error flag (the network-error observer it invokes holds no modelled state). -/
def Protocol.SetError (p : Protocol) : Protocol := { p with error_occurred_ := true }

/-- The pure virtual `bool SendText(const std::string&)` (protocol.h line 90) as seen by the
engine: the call is recorded and answers what the transport binding answers. -/
def Engine.SendText (b : Binding) (e : Engine) (text : String) : Bool × Engine :=
  (b.send_text_result text, { e with sent_texts := e.sent_texts ++ [text] })

/-- Modelled from the spec: the common body of the seven outbound commands, whose definitions
are in no translated file (protocol.h lines 69-75 only declares them).  Section 4.3: each
command serialises its message and calls `send_text`; on a channel that is not open it does
not send and reports an error instead.  All seven are declared `void` in protocol.h, so the
answer of `SendText` is not handed on and the caller gets nothing back. -/
def Engine.sendCommand (b : Binding) (e : Engine) (m : ControlMessage) : Returned × Engine :=
  if b.is_channel_open then
    (Returned.nothing, (e.SendText b (b.serialize m)).2)
  else
    (Returned.nothing, { e with session := b.closed_error e.session })

/-- Modelled from the spec: command `void SendWakeWordDetected(const std::string&)`, declared
at protocol.h line 69. -/
def Engine.SendWakeWordDetected (b : Binding) (e : Engine) (wake_word : String) :
    Returned × Engine :=
  e.sendCommand b (ControlMessage.wake_word_detected wake_word)

/-- Modelled from the spec: command `void SendStartListening(ListeningMode)`, declared at
protocol.h line 70. -/
def Engine.SendStartListening (b : Binding) (e : Engine) (mode : ListeningMode) :
    Returned × Engine :=
  e.sendCommand b (ControlMessage.listen_start mode)

/-- Modelled from the spec: command `void SendStopListening()`, declared at protocol.h
line 71. -/
def Engine.SendStopListening (b : Binding) (e : Engine) : Returned × Engine :=
  e.sendCommand b ControlMessage.listen_stop

/-- Modelled from the spec: command `void SendAbortSpeaking(AbortReason)`, declared at
protocol.h line 72. -/
def Engine.SendAbortSpeaking (b : Binding) (e : Engine) (reason : AbortReason) :
    Returned × Engine :=
  e.sendCommand b (ControlMessage.abort reason)

/-- Modelled from the spec: command `void SendIotDescriptors(const std::string&)`, declared at
protocol.h line 73. -/
def Engine.SendIotDescriptors (b : Binding) (e : Engine) (descriptors : String) :
    Returned × Engine :=
  e.sendCommand b (ControlMessage.iot_descriptors descriptors)

/-- Modelled from the spec: command `void SendIotStates(const std::string&)`, declared at
protocol.h line 74. -/
def Engine.SendIotStates (b : Binding) (e : Engine) (states : String) : Returned × Engine :=
  e.sendCommand b (ControlMessage.iot_states states)

/-- Modelled from the spec: command `void SendMcpMessage(const std::string&)`, declared at
protocol.h line 75. -/
def Engine.SendMcpMessage (b : Binding) (e : Engine) (message : String) : Returned × Engine :=
  e.sendCommand b (ControlMessage.mcp message)

/-- Whether a command run handed nothing to `SendText`: the record of sent texts after the
run is the record before it. -/
def Engine.SendTextNotInvoked (e : Engine) (run : Returned × Engine) : Prop :=
  run.2.sent_texts = e.sent_texts

/-! ## Theorems -/

/-- C1: a freshly constructed Protocol engine reports sample rate 24000, frame duration 60, an
empty session id, and has its error flag cleared. -/
theorem C1_fresh_protocol_defaults :
    Protocol.fresh.server_sample_rate = 24000 ∧
    Protocol.fresh.server_frame_duration = 60 ∧
    Protocol.fresh.session_id = "" ∧
    Protocol.fresh.error_occurred_ = false := by
  refine ⟨rfl, rfl, rfl, rfl⟩

/-- C7: StartNetwork enters WiFi configuration mode exactly when the mode flag is already set,
or no SSID is stored, or the 60000 ms wait for the station fails; the flag is set at every
entry; otherwise the call returns with the flag clear and the station started. -/
theorem C7_start_network_config_mode (env : NetEnv) (s : NetState) :
    ((∃ s0, (StartNetwork env s).EntersConfigModeFrom s0) ↔
      (s.wifi_config_mode_ = true ∨ env.ssid_list = [] ∨ env.WaitForConnected 60000 = false)) ∧
    (∀ s0, (StartNetwork env s).EntersConfigModeFrom s0 → s0.wifi_config_mode_ = true) ∧
    (¬ (s.wifi_config_mode_ = true ∨ env.ssid_list = [] ∨
          env.WaitForConnected 60000 = false) →
      ∃ s1, StartNetwork env s = Outcome.returned s1 ∧ s1.wifi_config_mode_ = false ∧
        s1.station_started = true) := by
  have hmode : ∀ a b : NetState, EnterWifiConfigMode a = EnterWifiConfigMode b →
      a.wifi_config_mode_ = b.wifi_config_mode_ := by
    intro a b h
    have := congrArg NetState.wifi_config_mode_ h
    simpa [EnterWifiConfigMode] using this
  cases hm : s.wifi_config_mode_ with
  | true =>
    refine ⟨⟨fun _ => Or.inl rfl, fun _ => ⟨s, ?_⟩⟩, ?_, ?_⟩
    · simp [StartNetwork, Outcome.EntersConfigModeFrom, hm]
    · intro s0 h
      simp only [StartNetwork, Outcome.EntersConfigModeFrom, hm, if_true,
        Outcome.neverReturns.injEq] at h
      rw [← hmode _ _ h, hm]
    · intro h
      exact absurd (Or.inl rfl) h
  | false =>
    cases hl : env.ssid_list with
    | nil =>
      refine ⟨⟨fun _ => Or.inr (Or.inl rfl), fun _ =>
        ⟨{ s with calls := s.calls ++ [Call.GetSsidList], wifi_config_mode_ := true }, ?_⟩⟩,
        ?_, ?_⟩
      · simp only [StartNetwork, Outcome.EntersConfigModeFrom, hm, hl, List.isEmpty_nil,
          if_true, Bool.false_eq_true, if_false]
      · intro s0 h
        simp only [StartNetwork, Outcome.EntersConfigModeFrom, hm, hl, List.isEmpty_nil,
          if_true, Bool.false_eq_true, if_false, Outcome.neverReturns.injEq] at h
        rw [← hmode _ _ h]
      · intro h
        exact absurd (Or.inr (Or.inl rfl)) h
    | cons x xs =>
      cases hw : env.WaitForConnected 60000 with
      | false =>
        have hw2 : env.WaitForConnected (60 * 1000) = false := hw
        refine ⟨⟨fun _ => Or.inr (Or.inr rfl), fun _ =>
          ⟨{ s with station_started := false, wifi_config_mode_ := true,
                    calls := s.calls ++ [Call.GetSsidList] ++ [Call.Station_Start] ++
                      [Call.Station_WaitForConnected (60 * 1000)] ++ [Call.Station_Stop] }, ?_⟩⟩,
          ?_, ?_⟩
        · simp only [StartNetwork, Outcome.EntersConfigModeFrom, hm, hl, hw2,
            List.isEmpty_cons, Bool.false_eq_true, if_false, Bool.not_false, if_true]
        · intro s0 h
          simp only [StartNetwork, Outcome.EntersConfigModeFrom, hm, hl, hw2,
            List.isEmpty_cons, Bool.false_eq_true, if_false, Bool.not_false, if_true,
            Outcome.neverReturns.injEq] at h
          rw [← hmode _ _ h]
        · intro h
          exact absurd (Or.inr (Or.inr rfl)) h
      | true =>
        have hw2 : env.WaitForConnected (60 * 1000) = true := hw
        have hret : StartNetwork env s = Outcome.returned
            { s with station_started := true,
                     calls := s.calls ++ [Call.GetSsidList] ++ [Call.Station_Start] ++
                       [Call.Station_WaitForConnected (60 * 1000)] } := by
          simp only [StartNetwork, hm, hl, hw2, List.isEmpty_cons, Bool.false_eq_true,
            if_false, Bool.not_true]
        refine ⟨⟨?_, ?_⟩, ?_, ?_⟩
        · rintro ⟨s0, h⟩
          rw [Outcome.EntersConfigModeFrom, hret] at h
          cases h
        · rintro (h | h | h)
          · cases h
          · cases h
          · cases h
        · intro s0 h
          rw [Outcome.EntersConfigModeFrom, hret] at h
          cases h
        · intro _
          exact ⟨_, hret, hm, rfl⟩

/-- Witness for C7: with the flag clear, one stored SSID and a station that connects the call
returns with the station started; with the flag set the call enters configuration mode. -/
theorem C7_start_network_config_mode_witness :
    (∃ s1, StartNetwork ⟨["home"], fun _ => true⟩ ⟨false, false, false, false, []⟩ =
        Outcome.returned s1 ∧ s1.wifi_config_mode_ = false ∧ s1.station_started = true) ∧
    (⟨true, false, false, false, []⟩ : NetState).wifi_config_mode_ = true :=
  ⟨(C7_start_network_config_mode ⟨["home"], fun _ => true⟩
      ⟨false, false, false, false, []⟩).2.2 (by simp),
   (C7_start_network_config_mode ⟨[], fun _ => true⟩ ⟨true, false, false, false, []⟩).2.1
      ⟨true, false, false, false, []⟩ (by simp [Outcome.EntersConfigModeFrom, StartNetwork])⟩

/-- Signal labels of the device-status tree, by RSSI range. -/
theorem signalLabels_status (ssid : String) (r : Int) :
    signalLabels (GetDeviceStatusJson ssid r) =
      [if r ≥ -60 then "strong" else if r ≥ -70 then "medium" else "weak"] := by
  unfold GetDeviceStatusJson
  split_ifs <;> simp [signalLabels, CJson.valuesAt, CJson.members, CJson.asString]

/-- C8: GetDeviceStatusJson reports exactly one signal label, strong iff rssi >= -60, medium
iff -70 <= rssi < -60, weak iff rssi < -70, and a larger RSSI never yields a weaker label. -/
theorem C8_signal_label (ssid : String) (r r2 : Int) :
    ∃ l : String,
      signalLabels (GetDeviceStatusJson ssid r) = [l] ∧
      (l = "strong" ↔ r ≥ -60) ∧
      (l = "medium" ↔ (-70 ≤ r ∧ r < -60)) ∧
      (l = "weak" ↔ r < -70) ∧
      (r ≤ r2 → ∃ l2, signalLabels (GetDeviceStatusJson ssid r2) = [l2] ∧
        labelRank l ≤ labelRank l2) := by
  refine ⟨_, signalLabels_status ssid r, ?_, ?_, ?_, ?_⟩
  · split_ifs <;> simp <;> omega
  · split_ifs <;> simp <;> omega
  · split_ifs <;> simp <;> omega
  · intro hle
    refine ⟨_, signalLabels_status ssid r2, ?_⟩
    split_ifs <;> simp [labelRank] <;> omega

/-- Witness for C8: RSSI -75 is reported with one label, ranked no higher than the one label
reported for the larger RSSI -50. -/
theorem C8_signal_label_witness :
    ∃ l : String,
      signalLabels (GetDeviceStatusJson "home" (-75)) = [l] ∧
      ∃ l2, signalLabels (GetDeviceStatusJson "home" (-50)) = [l2] ∧
        labelRank l ≤ labelRank l2 := by
  obtain ⟨l, h1, _, _, _, h5⟩ := C8_signal_label "home" (-75) (-50)
  exact ⟨l, h1, h5 (by decide)⟩

/-- The association-list store reads back what was written. -/
theorem assocSettings_readsBack : assocSettings.ReadsBack := by
  intro st k v
  simp [assocSettings, List.lookup]

/-- C9: force_ap is a one-shot flag: construction sets wifi_config_mode_ iff the stored value
is 1 and leaves a stored value different from 1 (0 when it was 1, unchanged otherwise); after
ResetWifiConfiguration the first construction enters config mode and the second does not. -/
theorem C9_force_ap_one_shot {σ : Type} (S : SettingsOps σ) (hS : S.ReadsBack) (st : σ) :
    (((WifiBoard.construct S st).1.wifi_config_mode_ = true ↔ S.GetInt st "force_ap" = 1) ∧
      S.GetInt (WifiBoard.construct S st).2 "force_ap" ≠ 1 ∧
      (S.GetInt st "force_ap" = 1 → S.GetInt (WifiBoard.construct S st).2 "force_ap" = 0) ∧
      (S.GetInt st "force_ap" ≠ 1 → (WifiBoard.construct S st).2 = st)) ∧
    ((WifiBoard.construct S (WifiBoard.ResetWifiConfiguration S st)).1.wifi_config_mode_ = true ∧
      (WifiBoard.construct S
        (WifiBoard.construct S (WifiBoard.ResetWifiConfiguration S st)).2).1.wifi_config_mode_
        = false) := by
  have key : ∀ t : σ,
      ((WifiBoard.construct S t).1.wifi_config_mode_ = true ↔ S.GetInt t "force_ap" = 1) ∧
      S.GetInt (WifiBoard.construct S t).2 "force_ap" ≠ 1 ∧
      (S.GetInt t "force_ap" = 1 → S.GetInt (WifiBoard.construct S t).2 "force_ap" = 0) ∧
      (S.GetInt t "force_ap" ≠ 1 → (WifiBoard.construct S t).2 = t) := by
    intro t
    by_cases h : S.GetInt t "force_ap" = 1
    · have h0 : S.GetInt (S.SetInt t "force_ap" 0) "force_ap" = 0 := hS t "force_ap" 0
      simp [WifiBoard.construct, h, h0]
    · simp [WifiBoard.construct, h]
  refine ⟨key st, ?_⟩
  have h1 : S.GetInt (WifiBoard.ResetWifiConfiguration S st) "force_ap" = 1 :=
    hS st "force_ap" 1
  refine ⟨(key _).1.mpr h1, ?_⟩
  have h2 := (key (WifiBoard.construct S (WifiBoard.ResetWifiConfiguration S st)).2)
  have h3 := (key (WifiBoard.ResetWifiConfiguration S st)).2.1
  cases hb : (WifiBoard.construct S
      (WifiBoard.construct S (WifiBoard.ResetWifiConfiguration S st)).2).1.wifi_config_mode_ with
  | false => rfl
  | true => exact absurd (h2.1.mp hb) h3

/-- Witness for C9: on an association-list store holding force_ap = 7, a reset followed by
two constructions gives config mode on the first and not on the second. -/
theorem C9_force_ap_one_shot_witness :
    (WifiBoard.construct assocSettings
      (WifiBoard.ResetWifiConfiguration assocSettings [("force_ap", 7)])).1.wifi_config_mode_
      = true ∧
    (WifiBoard.construct assocSettings
      (WifiBoard.construct assocSettings
        (WifiBoard.ResetWifiConfiguration assocSettings
          [("force_ap", 7)])).2).1.wifi_config_mode_ = false :=
  (C9_force_ap_one_shot assocSettings assocSettings_readsBack [("force_ap", 7)]).2

/-- Placement of the members of BinaryProtocol2. -/
theorem BinaryProtocol2_layout :
    BinaryProtocol2.layout =
      [⟨"version", 0, 2⟩, ⟨"type", 2, 2⟩, ⟨"reserved", 4, 4⟩, ⟨"timestamp", 8, 4⟩,
       ⟨"payload_size", 12, 4⟩, ⟨"payload", 16, 0⟩] := by
  decide

/-- Placement of the members of BinaryProtocol3. -/
theorem BinaryProtocol3_layout :
    BinaryProtocol3.layout =
      [⟨"type", 0, 1⟩, ⟨"reserved", 1, 1⟩, ⟨"payload_size", 2, 2⟩, ⟨"payload", 4, 0⟩] := by
  decide

/-- C2: BinaryProtocol2 is 16 bytes with no padding, members version, type, reserved,
timestamp, payload_size at offsets 0, 2, 4, 8, 12 with sizes 2, 2, 4, 4, 4; the payload starts
at offset 16 and a frame with n payload bytes occupies 16 + n bytes. -/
theorem C2_binary_protocol2_layout (n : Nat) :
    BinaryProtocol2.layout =
      [⟨"version", 0, 2⟩, ⟨"type", 2, 2⟩, ⟨"reserved", 4, 4⟩, ⟨"timestamp", 8, 4⟩,
       ⟨"payload_size", 12, 4⟩, ⟨"payload", 16, 0⟩] ∧
    BinaryProtocol2.sizeof = 16 ∧
    BinaryProtocol2.membersSize = BinaryProtocol2.sizeof ∧
    BinaryProtocol2.offsetof "payload" = some 16 ∧
    BinaryProtocol2.frameSize n = 16 + n := by
  refine ⟨by decide, by decide, by decide, by decide, ?_⟩
  have h1 : BinaryProtocol2.sizeof = 16 := by decide
  have h2 : (BinaryProtocol2.fields.getLast?.map (fun f => f.ty.elemSize)).getD 0 = 1 := by
    decide
  rw [StructDecl.frameSize, h1, h2, Nat.mul_one]

/-- C3: BinaryProtocol3 is 4 bytes with no padding, members type, reserved, payload_size at
offsets 0, 1, 2 with sizes 1, 1, 2; the payload starts at offset 4 and a frame with n payload
bytes occupies 4 + n bytes. -/
theorem C3_binary_protocol3_layout (n : Nat) :
    BinaryProtocol3.layout =
      [⟨"type", 0, 1⟩, ⟨"reserved", 1, 1⟩, ⟨"payload_size", 2, 2⟩, ⟨"payload", 4, 0⟩] ∧
    BinaryProtocol3.sizeof = 4 ∧
    BinaryProtocol3.membersSize = BinaryProtocol3.sizeof ∧
    BinaryProtocol3.offsetof "payload" = some 4 ∧
    BinaryProtocol3.frameSize n = 4 + n := by
  refine ⟨by decide, by decide, by decide, by decide, ?_⟩
  have h1 : BinaryProtocol3.sizeof = 4 := by decide
  have h2 : (BinaryProtocol3.fields.getLast?.map (fun f => f.ty.elemSize)).getD 0 = 1 := by
    decide
  rw [StructDecl.frameSize, h1, h2, Nat.mul_one]

/-- On an open channel a command hands exactly its serialised message to SendText. -/
theorem sendCommand_open (b : Binding) (e : Engine) (m : ControlMessage)
    (hopen : b.is_channel_open = true) :
    (e.sendCommand b m).2.sent_texts = e.sent_texts ++ [b.serialize m] := by
  simp [Engine.sendCommand, Engine.SendText, hopen]

/-- C5 as stated fails: on a closed channel SendAbortSpeaking for a detected wake word hands
nothing back to its caller (it is declared void), so it does not return failure; SendText is not
invoked. -/
theorem C5_closed_channel_counterexample :
    (Engine.SendAbortSpeaking ⟨false, fun _ => "abort", fun _ => true, Protocol.SetError⟩
        ⟨Protocol.fresh, []⟩ AbortReason.kAbortReasonWakeWordDetected).1 = Returned.nothing ∧
    (Engine.SendAbortSpeaking ⟨false, fun _ => "abort", fun _ => true, Protocol.SetError⟩
        ⟨Protocol.fresh, []⟩ AbortReason.kAbortReasonWakeWordDetected).1
      ≠ Returned.status false ∧
    (Engine.SendAbortSpeaking ⟨false, fun _ => "abort", fun _ => true, Protocol.SetError⟩
        ⟨Protocol.fresh, []⟩ AbortReason.kAbortReasonWakeWordDetected).2.sent_texts = [] := by
  refine ⟨by decide, by decide, by decide⟩

/-- C5, amended: whenever the channel is not open, for every engine state and whatever the
error report does to the session state, none of the seven outbound commands invokes SendText;
in particular SendAbortSpeaking for a detected wake word does not.  The commands hand no
status back to the caller. -/
theorem C5_closed_channel_no_send_text (b : Binding) (e : Engine)
    (hclosed : b.is_channel_open = false)
    (wake_word descriptors states message : String) (mode : ListeningMode)
    (reason : AbortReason) :
    (e.SendTextNotInvoked (e.SendWakeWordDetected b wake_word) ∧
      e.SendTextNotInvoked (e.SendStartListening b mode) ∧
      e.SendTextNotInvoked (e.SendStopListening b) ∧
      e.SendTextNotInvoked (e.SendAbortSpeaking b reason) ∧
      e.SendTextNotInvoked (e.SendIotDescriptors b descriptors) ∧
      e.SendTextNotInvoked (e.SendIotStates b states) ∧
      e.SendTextNotInvoked (e.SendMcpMessage b message)) ∧
    e.SendTextNotInvoked (e.SendAbortSpeaking b AbortReason.kAbortReasonWakeWordDetected) ∧
    ((e.SendWakeWordDetected b wake_word).1 = Returned.nothing ∧
      (e.SendStartListening b mode).1 = Returned.nothing ∧
      (e.SendStopListening b).1 = Returned.nothing ∧
      (e.SendAbortSpeaking b reason).1 = Returned.nothing ∧
      (e.SendIotDescriptors b descriptors).1 = Returned.nothing ∧
      (e.SendIotStates b states).1 = Returned.nothing ∧
      (e.SendMcpMessage b message).1 = Returned.nothing) := by
  have h : ∀ m, e.sendCommand b m
      = (Returned.nothing, { e with session := b.closed_error e.session }) := by
    intro m
    simp [Engine.sendCommand, hclosed]
  simp [Engine.SendTextNotInvoked, Engine.SendWakeWordDetected, Engine.SendStartListening,
    Engine.SendStopListening, Engine.SendAbortSpeaking, Engine.SendIotDescriptors,
    Engine.SendIotStates, Engine.SendMcpMessage, h]

/-- Witness for the amended C5: with an error report that sets the error flag, a
stop-listening command on a channel that is not open leaves the one text sent earlier as the
whole record of sent texts. -/
theorem C5_closed_channel_no_send_text_witness :
    (Engine.SendStopListening ⟨false, fun _ => "stop", fun _ => true, Protocol.SetError⟩
        ⟨Protocol.fresh, ["hello"]⟩).2.sent_texts = ["hello"] :=
  (C5_closed_channel_no_send_text ⟨false, fun _ => "stop", fun _ => true, Protocol.SetError⟩
    ⟨Protocol.fresh, ["hello"]⟩ rfl "" "" "" ""
    ListeningMode.kListeningModeAutoStop AbortReason.kAbortReasonNone).1.2.2.1

/-- Length of the stored bytes of a member. -/
theorem leBytes_length (w n : Nat) : (leBytes w n).length = w := by
  induction w generalizing n with
  | zero => rfl
  | succ k ih => simp [leBytes, ih]

/-- Reading back the stored bytes gives the value truncated to the member width. -/
theorem leValue_leBytes (w n : Nat) : leValue (leBytes w n) = n % 256 ^ w := by
  induction w generalizing n with
  | zero => simp [leBytes, leValue, Nat.mod_one]
  | succ k ih =>
    simp only [leBytes, leValue, ih]
    rw [pow_succ, Nat.mul_comm (256 ^ k) 256, Nat.mod_mul]

/-- Length of a stored member in either byte order. -/
theorem toBytes_length (bo : ByteOrder) (w n : Nat) : (toBytes bo w n).length = w := by
  cases bo <;> simp [toBytes, leBytes_length]

/-- A member of width 0 stores no byte. -/
theorem toBytes_zero (bo : ByteOrder) (n : Nat) : toBytes bo 0 n = [] := by
  cases bo <;> rfl

/-- Reading a stored member back in the same byte order truncates to the member width. -/
theorem fromBytes_toBytes (bo : ByteOrder) (w n : Nat) :
    fromBytes bo (toBytes bo w n) = n % 256 ^ w := by
  cases bo <;> simp [fromBytes, toBytes, leValue_leBytes]

/-- The slice of width `x.length` right after a prefix is the part appended there. -/
theorem take_drop_middle (pre x post : List Nat) (k w : Nat) (hk : pre.length = k)
    (hw : x.length = w) : ((pre ++ x ++ post).drop k).take w = x := by
  subst hk hw
  simp

/-- Memory image of a version-2 header. -/
theorem BinaryProtocol2_image (bo : ByteOrder) (vals : String → Nat) :
    BinaryProtocol2.image bo vals =
      toBytes bo 2 (vals "version") ++ toBytes bo 2 (vals "type") ++
      toBytes bo 4 (vals "reserved") ++ toBytes bo 4 (vals "timestamp") ++
      toBytes bo 4 (vals "payload_size") := by
  simp [StructDecl.image, BinaryProtocol2_layout, toBytes_length, toBytes_zero]

/-- Memory image of a version-3 header. -/
theorem BinaryProtocol3_image (bo : ByteOrder) (vals : String → Nat) :
    BinaryProtocol3.image bo vals =
      toBytes bo 1 (vals "type") ++ toBytes bo 1 (vals "reserved") ++
      toBytes bo 2 (vals "payload_size") := by
  simp [StructDecl.image, BinaryProtocol3_layout, toBytes_length, toBytes_zero]

/-- Members read back from a version-2 header image followed by any payload. -/
theorem BinaryProtocol2_read (bo : ByteOrder) (vals : String → Nat) (rest : List Nat) :
    BinaryProtocol2.read bo (BinaryProtocol2.image bo vals ++ rest) "type"
      = vals "type" % 256 ^ 2 ∧
    BinaryProtocol2.read bo (BinaryProtocol2.image bo vals ++ rest) "timestamp"
      = vals "timestamp" % 256 ^ 4 ∧
    BinaryProtocol2.read bo (BinaryProtocol2.image bo vals ++ rest) "payload_size"
      = vals "payload_size" % 256 ^ 4 := by
  have o1 : BinaryProtocol2.offsetof "type" = some 2 := by decide
  have o2 : BinaryProtocol2.offsetof "timestamp" = some 8 := by decide
  have o3 : BinaryProtocol2.offsetof "payload_size" = some 12 := by decide
  have w1 : BinaryProtocol2.fieldSize "type" = 2 := by decide
  have w2 : BinaryProtocol2.fieldSize "timestamp" = 4 := by decide
  have w3 : BinaryProtocol2.fieldSize "payload_size" = 4 := by decide
  simp only [StructDecl.read, o1, o2, o3, w1, w2, w3, Option.getD_some, BinaryProtocol2_image]
  refine ⟨?_, ?_, ?_⟩
  · rw [show toBytes bo 2 (vals "version") ++ toBytes bo 2 (vals "type") ++
          toBytes bo 4 (vals "reserved") ++ toBytes bo 4 (vals "timestamp") ++
          toBytes bo 4 (vals "payload_size") ++ rest =
        toBytes bo 2 (vals "version") ++ toBytes bo 2 (vals "type") ++
          (toBytes bo 4 (vals "reserved") ++ toBytes bo 4 (vals "timestamp") ++
          toBytes bo 4 (vals "payload_size") ++ rest) by simp [List.append_assoc],
      take_drop_middle _ _ _ 2 2 (by simp [toBytes_length]) (by simp [toBytes_length]),
      fromBytes_toBytes]
  · rw [show toBytes bo 2 (vals "version") ++ toBytes bo 2 (vals "type") ++
          toBytes bo 4 (vals "reserved") ++ toBytes bo 4 (vals "timestamp") ++
          toBytes bo 4 (vals "payload_size") ++ rest =
        (toBytes bo 2 (vals "version") ++ toBytes bo 2 (vals "type") ++
          toBytes bo 4 (vals "reserved")) ++ toBytes bo 4 (vals "timestamp") ++
          (toBytes bo 4 (vals "payload_size") ++ rest) by simp [List.append_assoc],
      take_drop_middle _ _ _ 8 4 (by simp [toBytes_length]) (by simp [toBytes_length]),
      fromBytes_toBytes]
  · rw [take_drop_middle _ _ _ 12 4 (by simp [toBytes_length]) (by simp [toBytes_length]),
      fromBytes_toBytes]

/-- Members read back from a version-3 header image followed by any payload. -/
theorem BinaryProtocol3_read (bo : ByteOrder) (vals : String → Nat) (rest : List Nat) :
    BinaryProtocol3.read bo (BinaryProtocol3.image bo vals ++ rest) "type"
      = vals "type" % 256 ^ 1 ∧
    BinaryProtocol3.read bo (BinaryProtocol3.image bo vals ++ rest) "payload_size"
      = vals "payload_size" % 256 ^ 2 := by
  have o1 : BinaryProtocol3.offsetof "type" = some 0 := by decide
  have o3 : BinaryProtocol3.offsetof "payload_size" = some 2 := by decide
  have w1 : BinaryProtocol3.fieldSize "type" = 1 := by decide
  have w3 : BinaryProtocol3.fieldSize "payload_size" = 2 := by decide
  simp only [StructDecl.read, o1, o3, w1, w3, Option.getD_some, BinaryProtocol3_image]
  refine ⟨?_, ?_⟩
  · rw [show toBytes bo 1 (vals "type") ++ toBytes bo 1 (vals "reserved") ++
          toBytes bo 2 (vals "payload_size") ++ rest =
        [] ++ toBytes bo 1 (vals "type") ++ (toBytes bo 1 (vals "reserved") ++
          toBytes bo 2 (vals "payload_size") ++ rest) by simp [List.append_assoc],
      take_drop_middle _ _ _ 0 1 (by simp) (by simp [toBytes_length]),
      fromBytes_toBytes]
  · rw [take_drop_middle _ _ _ 2 2 (by simp [toBytes_length]) (by simp [toBytes_length]),
      fromBytes_toBytes]

/-- Length of a header image: the size of the struct. -/
theorem image_length (bo : ByteOrder) (v : FrameVersion) (vals : String → Nat) :
    (v.decl.image bo vals).length = v.decl.sizeof := by
  cases v
  · have h : BinaryProtocol2.sizeof = 16 := by decide
    simp [FrameVersion.decl, BinaryProtocol2_image, toBytes_length, h]
  · have h : BinaryProtocol3.sizeof = 4 := by decide
    simp [FrameVersion.decl, BinaryProtocol3_image, toBytes_length, h]

/-- Range of the payload_size member of each version. -/
theorem maxPayload_values :
    FrameVersion.v2.maxPayload = 2 ^ 32 - 1 ∧ FrameVersion.v3.maxPayload = 65535 := by
  constructor <;> decide

/-- The payload_size member read from an encoded frame is the payload length whenever that
length is within the range of the member. -/
theorem read_payload_size (bo : ByteOrder) (p : AudioStreamPacket) (v : FrameVersion)
    (h : p.payload.length ≤ v.maxPayload) :
    v.decl.read bo (v.decl.image bo (audioHeader p v) ++ p.payload) "payload_size"
      = p.payload.length := by
  cases v
  · have hm := maxPayload_values.1
    rw [hm] at h
    simp only [FrameVersion.decl]
    rw [(BinaryProtocol2_read bo _ p.payload).2.2]
    simp only [audioHeader]
    simp only [show ("payload_size" = "version") = False by decide,
      show ("payload_size" = "timestamp") = False by decide, if_false, if_true]
    apply Nat.mod_eq_of_lt
    norm_num at h ⊢
    omega
  · have hm := maxPayload_values.2
    rw [hm] at h
    simp only [FrameVersion.decl]
    rw [(BinaryProtocol3_read bo _ p.payload).2]
    simp only [audioHeader]
    simp only [show ("payload_size" = "version") = False by decide,
      show ("payload_size" = "timestamp") = False by decide, if_false, if_true]
    apply Nat.mod_eq_of_lt
    norm_num at h ⊢
    omega

/-- The encoded bytes do not depend on the sample rate or the frame duration of the packet. -/
theorem encode_audio_ignores_rate (bo : ByteOrder) (p : AudioStreamPacket) (v : FrameVersion)
    (rate duration : Int) :
    encode_audio bo { p with sample_rate := rate, frame_duration := duration } v
      = encode_audio bo p v := by
  have h : audioHeader { p with sample_rate := rate, frame_duration := duration } v
      = audioHeader p v := by
    funext name
    simp [audioHeader]
  simp only [encode_audio, h]

/-- C6: encode_audio fails with PayloadTooLarge exactly when the payload length exceeds the
range of the payload_size member (2^32 - 1 for version 2, 65535 for version 3); within the
range it succeeds and the payload_size member of the produced header is the payload length. -/
theorem C6_payload_too_large (bo : ByteOrder) (p : AudioStreamPacket) (v : FrameVersion) :
    (encode_audio bo p v = Except.error FrameError.PayloadTooLarge ↔
      p.payload.length > v.maxPayload) ∧
    (FrameVersion.v2.maxPayload = 2 ^ 32 - 1 ∧ FrameVersion.v3.maxPayload = 65535) ∧
    (p.payload.length ≤ v.maxPayload →
      ∃ bytes, encode_audio bo p v = Except.ok bytes ∧
        bytes.length = v.decl.frameSize p.payload.length ∧
        v.decl.read bo bytes "payload_size" = p.payload.length) := by
  refine ⟨?_, maxPayload_values, ?_⟩
  · by_cases h : p.payload.length > v.maxPayload
    · simp [encode_audio, h]
    · simp [encode_audio, h]
  · intro h
    refine ⟨v.decl.image bo (audioHeader p v) ++ p.payload, ?_, ?_, read_payload_size bo p v h⟩
    · simp [encode_audio, Nat.not_lt.mpr h]
    · rw [List.length_append, image_length]
      cases v
      · have h2 : (BinaryProtocol2.fields.getLast?.map (fun f => f.ty.elemSize)).getD 0 = 1 := by
          decide
        simp only [FrameVersion.decl, StructDecl.frameSize, h2, Nat.mul_one]
      · have h2 : (BinaryProtocol3.fields.getLast?.map (fun f => f.ty.elemSize)).getD 0 = 1 := by
          decide
        simp only [FrameVersion.decl, StructDecl.frameSize, h2, Nat.mul_one]

/-- Witness for C6: a two-byte payload encodes under version 3 in little-endian order to a
six-byte frame whose payload_size member reads 2. -/
theorem C6_payload_too_large_witness :
    ∃ bytes, encode_audio ByteOrder.little ⟨16000, 60, 1000, [1, 2]⟩ FrameVersion.v3
        = Except.ok bytes ∧
      bytes.length = FrameVersion.v3.decl.frameSize 2 ∧
      FrameVersion.v3.decl.read ByteOrder.little bytes "payload_size" = 2 :=
  (C6_payload_too_large ByteOrder.little ⟨16000, 60, 1000, [1, 2]⟩ FrameVersion.v3).2.2
    (by decide)

/-- C4 as stated fails: a valid packet with sample rate 16000 and frame duration 60 does not
come back from the version-2 round trip, because its encoding is byte for byte the encoding of
the packet with sample rate 0 and frame duration 0. -/
theorem C4_round_trip_counterexample :
    AudioStreamPacket.valid ⟨16000, 60, 1000, [1, 2]⟩ ∧
    [1, 2].length ≤ FrameVersion.v2.maxPayload ∧
    encode_audio ByteOrder.big ⟨16000, 60, 1000, [1, 2]⟩ FrameVersion.v2
      = Except.ok [0, 2, 0, 0, 0, 0, 0, 0, 0, 0, 3, 232, 0, 0, 0, 2, 1, 2] ∧
    encode_audio ByteOrder.big ⟨0, 0, 1000, [1, 2]⟩ FrameVersion.v2
      = Except.ok [0, 2, 0, 0, 0, 0, 0, 0, 0, 0, 3, 232, 0, 0, 0, 2, 1, 2] ∧
    roundTrip ByteOrder.big ⟨16000, 60, 1000, [1, 2]⟩ FrameVersion.v2
      = Except.ok (Frame.audio ⟨0, 0, 1000, [1, 2]⟩) ∧
    roundTrip ByteOrder.big ⟨16000, 60, 1000, [1, 2]⟩ FrameVersion.v2
      ≠ Except.ok (Frame.audio (expectedRoundTrip ⟨16000, 60, 1000, [1, 2]⟩ FrameVersion.v2)) := by
  refine ⟨?_, by decide, by decide, by decide, by decide, by decide⟩
  unfold AudioStreamPacket.valid
  decide

/-- C4, amended: for every valid packet whose payload fits the payload_size member, decoding
the encoded bytes yields an audio packet with the same payload and with the same timestamp
under version 2, timestamp 0 under version 3. -/
theorem C4_round_trip_payload_timestamp (bo : ByteOrder) (p : AudioStreamPacket)
    (v : FrameVersion) (hvalid : p.valid) (hfit : p.payload.length ≤ v.maxPayload) :
    ∃ q, roundTrip bo p v = Except.ok (Frame.audio q) ∧
      q.payload = p.payload ∧
      q.timestamp = (expectedRoundTrip p v).timestamp := by
  have hts : p.timestamp < 2 ^ 32 := hvalid.2.2.1
  have henc : encode_audio bo p v
      = Except.ok (v.decl.image bo (audioHeader p v) ++ p.payload) := by
    simp [encode_audio, Nat.not_lt.mpr hfit]
  have hlen : ¬ (v.decl.image bo (audioHeader p v) ++ p.payload).length < v.decl.sizeof := by
    rw [List.length_append, image_length]
    omega
  have hdrop : (v.decl.image bo (audioHeader p v) ++ p.payload).drop v.decl.sizeof
      = p.payload := by
    rw [← image_length bo v (audioHeader p v)]
    simp
  have hsize := read_payload_size bo p v hfit
  have htype : v.decl.read bo (v.decl.image bo (audioHeader p v) ++ p.payload) "type" = 0 := by
    cases v
    · simp only [FrameVersion.decl]
      rw [(BinaryProtocol2_read bo _ p.payload).1]
      simp [audioHeader]
    · simp only [FrameVersion.decl]
      rw [(BinaryProtocol3_read bo _ p.payload).1]
      simp [audioHeader]
  simp only [roundTrip, henc, decode, hlen, hdrop, hsize, htype, if_false, if_true,
    ne_eq, not_true_eq_false]
  cases v
  · refine ⟨_, rfl, rfl, ?_⟩
    simp only [FrameVersion.decl, expectedRoundTrip]
    rw [(BinaryProtocol2_read bo _ p.payload).2.1]
    simp only [audioHeader]
    simp only [show ("timestamp" = "version") = False by decide, if_false, if_true]
    apply Nat.mod_eq_of_lt
    norm_num at hts ⊢
    omega
  · exact ⟨_, rfl, rfl, rfl⟩

/-- Witness for the amended C4: a valid packet with sample rate 16000 round-trips under
version 3 in little-endian order to a packet with its payload and timestamp 0. -/
theorem C4_round_trip_payload_timestamp_witness :
    ∃ q, roundTrip ByteOrder.little ⟨16000, 60, 1000, [1, 2]⟩ FrameVersion.v3
        = Except.ok (Frame.audio q) ∧
      q.payload = [1, 2] ∧ q.timestamp = 0 :=
  C4_round_trip_payload_timestamp ByteOrder.little ⟨16000, 60, 1000, [1, 2]⟩ FrameVersion.v3
    (by unfold AudioStreamPacket.valid; decide) (by decide)

end Pingpong
